import Mathlib

/-!
Verification of md2googleslides against its specification.

The TypeScript sources are shallowly embedded: pure functions become Lean
functions, asynchronous fallible code returns `Except`, JavaScript objects
become structures or association lists, and external collaborators
(the `parse-color` library, the `css` parser, the HTTP transport, the SVG
renderer) are abstracted as function parameters so that every behaviour
of the collaborator is quantified over.
-/

namespace MdToSlides

/-! ## String primitives

JavaScript string methods, embedded over the character list of the
string so that every use is executable by kernel reduction. -/

/-- JavaScript `startsWith`. -/
def strStartsWith (s p : String) : Bool := decide (p.data <+: s.data)

/-- JavaScript `endsWith`. -/
def strEndsWith (s p : String) : Bool := decide (p.data <:+ s.data)

/-- JavaScript `toLowerCase` (ASCII case folding suffices here). -/
def strToLower (s : String) : String := ⟨s.data.map Char.toLower⟩

/-- JavaScript `trim`. -/
def strTrim (s : String) : String :=
  ⟨((s.data.dropWhile Char.isWhitespace).reverse.dropWhile
      Char.isWhitespace).reverse⟩

/-- Drop the first `n` characters. -/
def strDrop (s : String) (n : ℕ) : String := ⟨s.data.drop n⟩

/-- String length in characters. -/
def strLength (s : String) : ℕ := s.data.length

/-! ## Shared data model (src/slides.ts shapes as used by the sources) -/

/-- An RGB color with fractional channels, as produced by the style
resolver (`Color` in src/slides.ts, mirroring the Slides API shape). -/
structure RgbColor where
  red : ℚ
  green : ℚ
  blue : ℚ
deriving DecidableEq, Repr

structure OpaqueColor where
  rgbColor : RgbColor
deriving DecidableEq, Repr

structure Color where
  opaqueColor : OpaqueColor
deriving DecidableEq, Repr

/-- A font size with an explicit unit (`Dimension` in the Slides API). -/
structure FontSize where
  magnitude : ℕ
  unit : String
deriving DecidableEq, Repr

/-- The style-effect record filled in by `updateStyleDefinition`
(`StyleDefinition` in src/slides.ts).  Absent fields are `none`,
mirroring `undefined` in TypeScript. -/
structure StyleDefinition where
  bold : Option Bool := none
  italic : Option Bool := none
  underline : Option Bool := none
  strikethrough : Option Bool := none
  smallCaps : Option Bool := none
  fontFamily : Option String := none
  fontSize : Option FontSize := none
  foregroundColor : Option Color := none
  backgroundColor : Option Color := none
deriving DecidableEq, Repr

instance : Inhabited StyleDefinition := ⟨{}⟩

/-! ## Style resolver (src/parser/css.ts, embedded from part_001) -/

/-- The `rgba` field of the result of the external `parse-color` library:
byte-valued red, green and blue components plus an alpha fraction.
`parseColor` itself is abstracted as a `String → Option Rgba` parameter
(`none` models a result whose `rgba` field is `undefined`). -/
structure Rgba where
  r : ℕ
  g : ℕ
  b : ℕ
  a : ℚ
deriving DecidableEq, Repr

/-- Embedding of `parseColorString`: resolve a color string via the
external `parse-color` library; when it yields RGB components, divide
each byte component by 255, otherwise produce no color at all. -/
def parseColorString (parseColor : String → Option Rgba)
    (hexString : String) : Option Color :=
  match parseColor hexString with
  | none => none
  | some c =>
    some { opaqueColor := { rgbColor :=
      { red := (c.r : ℚ) / 255
        green := (c.g : ℚ) / 255
        blue := (c.b : ℚ) / 255 } } }

/-- Embedding of the first capture group of the JavaScript regular
expression match `value.match(/(\d+)(?:pt)?/)`: the regex is unanchored,
so a match succeeds exactly when the string contains a digit, and the
first capture is the first maximal run of digits. -/
def firstDigitRun : List Char → Option (List Char)
  | [] => none
  | c :: cs =>
    if c.isDigit then some (c :: cs.takeWhile Char.isDigit)
    else firstDigitRun cs

/-- Decimal value of a digit string, as `Number.parseInt` computes it on
the capture group (which is always a nonempty digit run). -/
def digitsToNat (ds : List Char) : ℕ :=
  ds.foldl (fun n c => n * 10 + (c.toNat - 48)) 0

/-- The font-size match of `updateStyleDefinition`: `none` when the value
has no digit (the regex fails and the property is skipped), otherwise the
parsed integer value of the first digit run. -/
def fontSizeMatch (value : String) : Option ℕ :=
  (firstDigitRun value.data).map digitsToNat

/-- One iteration of the `switch` in `updateStyleDefinition`, applied to
an already-normalized property key.  Unrecognized keys fall through to
the default branch, which only logs. -/
def applyCssProperty (parseColor : String → Option Rgba)
    (style : StyleDefinition) (key value : String) : StyleDefinition :=
  if key = "color" then
    { style with foregroundColor := parseColorString parseColor value }
  else if key = "backgroundColor" then
    { style with backgroundColor := parseColorString parseColor value }
  else if key = "fontWeight" then
    if value = "bold" then { style with bold := some true } else style
  else if key = "fontStyle" then
    if value = "italic" then { style with italic := some true }
    else if value = "underline" then { style with underline := some true }
    else if value = "line-through" then { style with strikethrough := some true }
    else style
  else if key = "fontFamily" then
    { style with fontFamily := some value }
  else if key = "fontVariant" then
    if value = "small-caps" then { style with smallCaps := some true } else style
  else if key = "fontSize" then
    match fontSizeMatch value with
    | none => style
    | some n => { style with fontSize := some { magnitude := n, unit := "PT" } }
  else
    style

/-- The property keys recognized by the `switch` in
`updateStyleDefinition` (after `normalizeKeys` camel-casing). -/
def recognizedKey (key : String) : Bool :=
  key = "color" || key = "backgroundColor" || key = "fontWeight" ||
  key = "fontStyle" || key = "fontFamily" || key = "fontVariant" ||
  key = "fontSize"

/-- Embedding of `updateStyleDefinition`: normalize every key with the
external lodash `camelCase` (abstracted as a parameter), then fold the
`switch` over the entries of the rule object in order. -/
def updateStyleDefinition (parseColor : String → Option Rgba)
    (camelCase : String → String)
    (css : List (String × String)) (style : StyleDefinition) : StyleDefinition :=
  (css.map (fun kv => (camelCase kv.1, kv.2))).foldl
    (fun st kv => applyCssProperty parseColor st kv.1 kv.2) style

/-! ## Stylesheet conversion (src/parser/css.ts, embedded from part_001) -/

/-- A JavaScript-object rule set: ordered property/value pairs. -/
def CssRule := List (String × String)
deriving DecidableEq, Repr

/-- A JavaScript-object stylesheet: ordered selector/rule pairs. -/
def Stylesheet := List (String × CssRule)
deriving DecidableEq, Repr

/-- JavaScript object property assignment `obj[k] = v`: overwrite an
existing key in place, otherwise append the new binding. -/
def objSet {α : Type} (m : List (String × α)) (k : String) (v : α) :
    List (String × α) :=
  if m.any (fun p => p.1 = k) then
    m.map (fun p => if p.1 = k then (k, v) else p)
  else
    m ++ [(k, v)]

/-- JavaScript object property read `obj[k]` (first binding wins; with
`objSet` keys are unique so this matches object semantics). -/
def objGet {α : Type} (m : List (String × α)) (k : String) : Option α :=
  (m.find? (fun p => p.1 = k)).map (fun p => p.2)

/-- One node of the AST produced by the external `css` parser:
a declaration with a `type` tag, an optional property name and an
optional value. -/
structure Declaration where
  type : String
  property : Option String
  value : Option String
deriving DecidableEq, Repr

/-- One rule node of the `css` parser AST. -/
structure CssAstRule where
  type : String
  selectors : Option (List String)
  declarations : Option (List Declaration)
deriving DecidableEq, Repr

/-- The `stylesheet` node of the `css` parser AST. -/
structure StylesheetNode where
  rules : Option (List CssAstRule)
deriving DecidableEq, Repr

/-- The root of the `css` parser AST. -/
structure ParsedCss where
  stylesheet : Option StylesheetNode
deriving DecidableEq, Repr

/-- The declarations object built for one rule: keep nodes whose `type`
is `declaration`, whose `property` is present and truthy (a JavaScript
empty string is falsy) and whose `value` is not `undefined`. -/
def ruleDeclarations (decls : List Declaration) : CssRule :=
  decls.foldl
    (fun d decl =>
      if decl.type = "declaration" then
        match decl.property, decl.value with
        | some p, some v => if p = "" then d else objSet d p v
        | _, _ => d
      else d)
    []

/-- Embedding of `convertCssToObject`: empty or blank input gives the
empty stylesheet; a throwing parse (`css.parse` is abstracted as a
`String → Except String ParsedCss` parameter, `.error` modelling a
thrown exception) is caught and gives the empty stylesheet; otherwise
each `rule`-typed AST rule with selectors and declarations contributes
its declaration object under each of its selectors. -/
def convertCssToObject (cssParse : String → Except String ParsedCss)
    (cssString : String) : Stylesheet :=
  if cssString = "" ∨ strTrim cssString = "" then []
  else
    match cssParse cssString with
    | .error _ => []
    | .ok parsed =>
      match parsed.stylesheet with
      | none => []
      | some node =>
        match node.rules with
        | none => []
        | some rules =>
          rules.foldl
            (fun result rule =>
              if rule.type ≠ "rule" then result
              else
                match rule.selectors, rule.declarations with
                | some sels, some decls =>
                  sels.foldl
                    (fun res sel => objSet res sel (ruleDeclarations decls))
                    result
                | _, _ => result)
            []

/-- Embedding of `parseStyleSheet`: `undefined` or empty input gives the
empty stylesheet, otherwise defer to `convertCssToObject`. -/
def parseStyleSheet (cssParse : String → Except String ParsedCss)
    (stylesheet : Option String) : Stylesheet :=
  match stylesheet with
  | none => []
  | some s => if s = "" then [] else convertCssToObject cssParse s

/-- Embedding of `parseInlineStyle`: wrap the declarations into a dummy
rule via the external `inline-styles-parse` library (abstracted as the
`declarationsToRule` parameter), convert, then read the rule back under
the `.dummy` or `dummy` selector, falling back to the empty rule. -/
def parseInlineStyle (declarationsToRule : String → String)
    (cssParse : String → Except String ParsedCss)
    (inlineStyle : String) : CssRule :=
  let dummyRule := declarationsToRule inlineStyle
  let converted := convertCssToObject cssParse dummyRule
  match objGet converted ".dummy" with
  | some r => r
  | none =>
    match objGet converted "dummy" with
    | some r => r
    | none => []

/-! ## Image definitions and the remote-SVG conversion
(src/images/remote_svg.ts, embedded from part_004) -/

/-- Structure `ImageDefinition` from src/slides.ts, with the fields the embedded
code reads or writes. -/
structure ImageDefinition where
  url : Option String := none
  source : Option String := none
  type : Option String := none
  width : Option ℕ := none
  height : Option ℕ := none
  padding : Option ℕ := none
  offsetX : Option ℕ := none
  offsetY : Option ℕ := none
deriving DecidableEq, Repr

instance : Inhabited ImageDefinition := ⟨{}⟩

/-- The `svgContent.trim().includes('<svg')` check of
`convertRemoteSVG`. -/
def containsSvgTag (s : String) : Bool :=
  decide (List.IsInfix "<svg".data (strTrim s).data)

/-- Embedding of `convertRemoteSVG`.  The HTTP download (`axios.get`,
which yields the response body text) and the SVG renderer (`renderSVG`,
which yields a local PNG path) are abstracted as `Except`-valued
parameters; `.error` models a rejected promise.  The `try`/`catch`
around the download-and-convert body is the final `match`: a failure of
either collaborator falls back to the unmodified image instead of
rejecting.

The `try` body of `convertRemoteSVG`: download, validate, render.
An `await` on a rejected promise propagates the rejection (`.error`). -/
def convertRemoteSVGAttempt (fetch : String → Except String String)
    (render : ImageDefinition → Except String String)
    (image : ImageDefinition) (url : String) : Except String ImageDefinition :=
  match fetch url with
  | .error e => .error e
  | .ok svgContent =>
    if ¬ (containsSvgTag svgContent) then .ok image
    else
      match render { image with source := some svgContent, type := some "svg" } with
      | .error e => .error e
      | .ok pngPath => .ok { image with url := some ("file://" ++ pngPath) }

/-- The `catch` of `convertRemoteSVG`: any failure of the body falls
back to the unmodified image. -/
def catchWithImage (attempt : Except String ImageDefinition)
    (image : ImageDefinition) : Except String ImageDefinition :=
  match attempt with
  | .ok result => .ok result
  | .error _ => .ok image

def convertRemoteSVG (fetch : String → Except String String)
    (render : ImageDefinition → Except String String)
    (image : ImageDefinition) : Except String ImageDefinition :=
  match image.url with
  | none => .ok image
  | some url =>
    if ¬ (strEndsWith (strToLower url) ".svg") then .ok image
    else if strStartsWith url "file://" then .ok image
    else catchWithImage (convertRemoteSVGAttempt fetch render image url) image

/-! ## Local image upload (src/images/local_file.ts, embedded from
part_002) -/

/-- The `data` object of the tmpfiles.org upload response. -/
structure UploadData where
  url : Option String
deriving DecidableEq, Repr

/-- The JSON body of the tmpfiles.org upload response. -/
structure UploadResponse where
  status : String
  data : Option UploadData
deriving DecidableEq, Repr

/-- The optional chain `responseData.data?.url`. -/
def dataUrl (res : UploadResponse) : Option String :=
  res.data.bind (fun d => d.url)

/-- The replacement
`url.replace(/^https?:\/\/tmpfiles\.org\//, 'https://tmpfiles.org/dl/')`:
the anchored regular expression rewrites only a leading
`http://tmpfiles.org/` or `https://tmpfiles.org/`. -/
def toDownloadUrl (url : String) : String :=
  if strStartsWith url "https://tmpfiles.org/" then
    "https://tmpfiles.org/dl/" ++ strDrop url (strLength "https://tmpfiles.org/")
  else if strStartsWith url "http://tmpfiles.org/" then
    "https://tmpfiles.org/dl/" ++ strDrop url (strLength "http://tmpfiles.org/")
  else
    url

/-- Embedding of `uploadLocalImage`, given the response of the hosting
service (the `axios.post` transport itself is outside the function's
decision).  The guard
`if (responseData.status !== 'success' || !responseData.data?.url) throw`
rejects on a non-success status or an absent or falsy (empty) URL;
otherwise the upload URL is rewritten to the download URL. -/
def uploadLocalImage (res : UploadResponse) : Except String String :=
  match dataUrl res with
  | none => .error "upload failed"
  | some url =>
    if res.status = "success" ∧ url ≠ "" then .ok (toDownloadUrl url)
    else .error "upload failed"

/-! ## Slide definition model and Request Generator

The repository snapshot carries only the test of
`src/layout/generic_layout.ts` (`GenericLayout.appendContentRequests`);
the implementation itself is absent, so the Request Generator below is
modelled from the specification (sections 3, 4.3, 4.4 and 8). -/

/-- A style range over a text block (`StyleRange` in the spec,
`textRuns` entries in the model): character span plus one fixed set of
style effects.  The source field `end` is `endIndex` here (`end` is a
Lean keyword). -/
structure TextRun extends StyleDefinition where
  start : ℕ
  endIndex : ℕ
deriving DecidableEq, Repr

/-- A list-marker range (`ListRange` in the spec): character span plus
the list kind. -/
structure ListMarker where
  start : ℕ
  endIndex : ℕ
  type : String
deriving DecidableEq, Repr

/-- Structure `TextDefinition` from the spec data model. -/
structure TextDefinition where
  rawText : String
  textRuns : List TextRun
  listMarkers : List ListMarker
  big : Bool
deriving DecidableEq, Repr

instance : Inhabited TextDefinition := ⟨⟨"", [], [], false⟩⟩

/-- Structure `VideoDefinition` from the spec data model. -/
structure VideoDefinition where
  width : Option ℕ := none
  height : Option ℕ := none
  autoPlay : Bool := false
  id : Option String := none
deriving DecidableEq, Repr

/-- One body (column) of a slide: images, videos and a text block. -/
structure Body where
  images : List ImageDefinition
  videos : List VideoDefinition
  text : TextDefinition
deriving DecidableEq, Repr

/-- Structure `TableDefinition` from the spec data model: row-major cells. -/
structure TableDefinition where
  rows : ℕ
  columns : ℕ
  cells : List (List TextDefinition)
deriving DecidableEq, Repr

/-- Structure `SlideDefinition` from the spec data model. -/
structure SlideDefinition where
  objectId : String
  title : Option TextDefinition := none
  subtitle : Option TextDefinition := none
  notes : Option TextDefinition := none
  bodies : List Body := []
  tables : List TableDefinition := []
  backgroundImage : Option ImageDefinition := none
deriving DecidableEq, Repr

/-- The cell address carried by table-cell operations
(`cellLocation` in the Slides API). -/
structure CellLocation where
  rowIndex : ℕ
  columnIndex : ℕ
deriving DecidableEq, Repr

/-- One mutation operation of the generated batch (the subset of the
Slides API request union the Generator emits). -/
inductive Request where
  | insertText (objectId : String) (cellLocation : Option CellLocation)
      (text : String)
  | updateTextStyle (objectId : String) (cellLocation : Option CellLocation)
      (startIndex endIndex : ℕ) (style : StyleDefinition)
  | createParagraphBullets (objectId : String)
      (cellLocation : Option CellLocation)
      (startIndex endIndex : ℕ) (bulletPreset : String)
  | createTable (pageObjectId : String) (objectId : String)
      (rows columns : ℕ)
  | createImage (pageObjectId : String) (url : String)
  | createVideo (pageObjectId : String) (source : String) (id : String)
  | updatePageProperties (objectId : String) (contentUrl : String)
deriving DecidableEq, Repr

/-- Modelled from the spec: the bound element identifier of body number
`i` (0-based) — the first body keeps the identifier bound from the
layout template, and each further column appends `"-<i+1>"`, e.g.
`"-2"` for the second column (spec sections 4.3 and 8; the
`generic_layout.ts` implementation is absent from the snapshot). -/
def bodyElementId (baseId : String) (i : ℕ) : String :=
  if i = 0 then baseId else baseId ++ "-" ++ toString (i + 1)

/-- Modelled from the spec: deterministic identifier for table number
`i` of a slide, derived from the slide `objectId` (spec section 3:
downstream identifiers are generated from the stable `objectId`). -/
def tableElementId (slideObjectId : String) (i : ℕ) : String :=
  slideObjectId ++ "-table-" ++ toString i

/-- The style-range operation emitted for one text run: a fixed range
with the run's effect set. -/
def styleRequest (objectId : String) (cellLocation : Option CellLocation)
    (run : TextRun) : Request :=
  .updateTextStyle objectId cellLocation run.start run.endIndex
    run.toStyleDefinition

/-- The bullet-range operation emitted for one list marker. -/
def bulletRequest (objectId : String) (cellLocation : Option CellLocation)
    (lm : ListMarker) : Request :=
  .createParagraphBullets objectId cellLocation lm.start lm.endIndex
    (if lm.type = "unordered" then "BULLET_DISC_CIRCLE_SQUARE"
     else "NUMBERED_DIGIT_ALPHA_ROMAN")

/-- Modelled from the spec: the operations for one text container —
the plain-text insertion first, then the style ranges in source order,
then the bullet ranges (spec section 4.4, rules 2 and 3; the
`generic_layout.ts` implementation is absent from the snapshot). -/
def textRequests (objectId : String) (cellLocation : Option CellLocation)
    (t : TextDefinition) : List Request :=
  .insertText objectId cellLocation t.rawText
    :: t.textRuns.map (styleRequest objectId cellLocation)
    ++ t.listMarkers.map (bulletRequest objectId cellLocation)

/-- Modelled from the spec: the operations for one body — its text
container's operations followed by its media creations, which reference
the page (spec section 4.4, rule 5). -/
def bodyRequests (pageId elementId : String) (b : Body) : List Request :=
  textRequests elementId none b.text
    ++ b.images.map (fun img => .createImage pageId (img.url.getD ""))
    ++ b.videos.map (fun v => .createVideo pageId "YOUTUBE" (v.id.getD ""))

/-- Modelled from the spec: the operations for all bodies in order, body
`i` bound to `bodyElementId baseBodyId i`. -/
def bodiesRequests (pageId baseBodyId : String) (bodies : List Body) :
    List Request :=
  bodies.enum.flatMap (fun ib => bodyRequests pageId (bodyElementId baseBodyId ib.1) ib.2)

/-- Modelled from the spec: the operations for one table — the
create-table operation on the slide's page first, then for each cell in
row-major order the cell's text operations, each insertion before that
cell's style operations (spec section 4.4, rule 4; the
`generic_layout.ts` implementation is absent from the snapshot). -/
def tableRequests (pageId tableId : String) (t : TableDefinition) :
    List Request :=
  .createTable pageId tableId t.rows t.columns
    :: t.cells.enum.flatMap (fun rc =>
        rc.2.enum.flatMap (fun cc =>
          textRequests tableId (some ⟨rc.1, cc.1⟩) cc.2))

/-- The operations for an optional text placeholder: skipped when the
slide has no such block or the layout exposes no such element (spec
section 7: a layout template missing a placeholder degrades gracefully). -/
def optTextRequests (elementId : Option String)
    (t : Option TextDefinition) : List Request :=
  match elementId, t with
  | some i, some td => textRequests i none td
  | _, _ => []

/-- The placeholder element identifiers bound by the Layout Matcher for
one slide (spec section 4.3). -/
structure BoundLayout where
  titleId : Option String := none
  subtitleId : Option String := none
  bodyId : Option String := none
  notesId : Option String := none
deriving DecidableEq, Repr

/-- Modelled from the spec: `GenericLayout.appendContentRequests` — the
Request Generator's per-slide walk (spec section 4.4; the
`generic_layout.ts` implementation is absent from the snapshot, only its
test).  It emits title, subtitle, bodies, tables, speaker notes and the
background-image page-property update, each per the ordering rules of
section 4.4. -/
def appendContentRequests (layout : BoundLayout) (slide : SlideDefinition) :
    List Request :=
  optTextRequests layout.titleId slide.title
    ++ optTextRequests layout.subtitleId slide.subtitle
    ++ (match layout.bodyId with
        | some b => bodiesRequests slide.objectId b slide.bodies
        | none => [])
    ++ slide.tables.enum.flatMap (fun it =>
        tableRequests slide.objectId (tableElementId slide.objectId it.1) it.2)
    ++ optTextRequests layout.notesId slide.notes
    ++ (match slide.backgroundImage with
        | some img =>
          match img.url with
          | some u => [.updatePageProperties slide.objectId u]
          | none => []
        | none => [])

/-! ### Request classifiers used by the theorems -/

/-- Is this a style-range operation? -/
def isUpdateTextStyleOp : Request → Bool
  | .updateTextStyle _ _ _ _ _ => true
  | _ => false

/-- Is this a create-table operation? -/
def isCreateTableOp : Request → Bool
  | .createTable _ _ _ _ => true
  | _ => false

/-- Is this a text insertion addressed to a table cell? -/
def isCellInsertOp : Request → Bool
  | .insertText _ (some _) _ => true
  | _ => false

/-- Is this a text insertion? -/
def isInsertTextOp : Request → Bool
  | .insertText _ _ _ => true
  | _ => false

/-- Does this operation address table cell `(r, c)`? -/
def targetsCell (r c : ℕ) : Request → Bool
  | .insertText _ (some loc) _ => loc.rowIndex = r ∧ loc.columnIndex = c
  | .updateTextStyle _ (some loc) _ _ _ => loc.rowIndex = r ∧ loc.columnIndex = c
  | .createParagraphBullets _ (some loc) _ _ _ => loc.rowIndex = r ∧ loc.columnIndex = c
  | _ => false

/-! ## Theorems -/

/-- C1: for every color string resolvable to RGB (the external
`parse-color` library yields byte components), `parseColorString`
produces a color whose red, green and blue channels equal the 0–255
component divided by 255, so every channel lies in `[0, 1]`; for every
color string not resolvable to RGB it produces no color at all. -/
theorem parseColorString_channels
    (parseColor : String → Option Rgba) (s : String)
    (hbytes : ∀ c, parseColor s = some c → c.r ≤ 255 ∧ c.g ≤ 255 ∧ c.b ≤ 255) :
    (parseColor s = none → parseColorString parseColor s = none) ∧
    (∀ c, parseColor s = some c →
      parseColorString parseColor s =
        some ⟨⟨⟨(c.r : ℚ) / 255, (c.g : ℚ) / 255, (c.b : ℚ) / 255⟩⟩⟩ ∧
      ∀ col, parseColorString parseColor s = some col →
        0 ≤ col.opaqueColor.rgbColor.red ∧ col.opaqueColor.rgbColor.red ≤ 1 ∧
        0 ≤ col.opaqueColor.rgbColor.green ∧ col.opaqueColor.rgbColor.green ≤ 1 ∧
        0 ≤ col.opaqueColor.rgbColor.blue ∧ col.opaqueColor.rgbColor.blue ≤ 1) := by
  constructor
  · intro h
    simp [parseColorString, h]
  · intro c hc
    obtain ⟨hr, hg, hb⟩ := hbytes c hc
    constructor
    · simp [parseColorString, hc]
    · intro col hcol
      rw [parseColorString, hc] at hcol
      have hcol' :
          col = ⟨⟨⟨(c.r : ℚ) / 255, (c.g : ℚ) / 255, (c.b : ℚ) / 255⟩⟩⟩ := by
        exact (Option.some.injEq _ _).mp hcol.symm
      subst hcol'
      refine ⟨by positivity, ?_, by positivity, ?_, by positivity, ?_⟩
      · rw [div_le_one (by norm_num)]
        exact_mod_cast hr
      · rw [div_le_one (by norm_num)]
        exact_mod_cast hg
      · rw [div_le_one (by norm_num)]
        exact_mod_cast hb

/-- Witness for C1 at a concrete resolvable input. -/
theorem parseColorString_channels_witness :
    parseColorString (fun _ => some ⟨128, 0, 255, 1⟩) "purple" =
      some ⟨⟨⟨(128 : ℚ) / 255, (0 : ℚ) / 255, (255 : ℚ) / 255⟩⟩⟩ := by
  have h := (parseColorString_channels (fun _ => some ⟨128, 0, 255, 1⟩) "purple"
    (by intro c hc; cases hc; exact ⟨by norm_num, by norm_num, by norm_num⟩)).2
    ⟨128, 0, 255, 1⟩ rfl
  simpa using h.1

/-- C5: a fontSize value matching the numeric pattern of the source
regular expression yields a fontSize whose magnitude is the parsed
integer and whose unit is always `PT`; a non-matching value sets no
fontSize and raises no error (the style is returned unchanged). -/
theorem updateStyleDefinition_fontSize
    (parseColor : String → Option Rgba) (style : StyleDefinition)
    (value : String) :
    (∀ n, fontSizeMatch value = some n →
      updateStyleDefinition parseColor id [("fontSize", value)] style =
        { style with fontSize := some { magnitude := n, unit := "PT" } }) ∧
    (fontSizeMatch value = none →
      updateStyleDefinition parseColor id [("fontSize", value)] style = style) := by
  constructor
  · intro n hn
    simp [updateStyleDefinition, applyCssProperty, hn]
  · intro hn
    simp [updateStyleDefinition, applyCssProperty, hn]

/-- Witness for C5 at the matching input `"12pt"` and the non-matching
input `"big"`. -/
theorem updateStyleDefinition_fontSize_witness :
    fontSizeMatch "12pt" = some 12 ∧
    updateStyleDefinition (fun _ => none) id [("fontSize", "12pt")] {} =
      { fontSize := some { magnitude := 12, unit := "PT" } } ∧
    fontSizeMatch "big" = none ∧
    updateStyleDefinition (fun _ => none) id [("fontSize", "big")] {} = {} := by
  refine ⟨by decide, ?_, by decide, ?_⟩
  · exact (updateStyleDefinition_fontSize (fun _ => none) {} "12pt").1 12 (by decide)
  · exact (updateStyleDefinition_fontSize (fun _ => none) {} "big").2 (by decide)

/-- Unrecognized normalized keys fall through the `switch` of
`updateStyleDefinition` without touching the style. -/
lemma applyCssProperty_unrecognized (parseColor : String → Option Rgba)
    (st : StyleDefinition) (k v : String) (h : recognizedKey k = false) :
    applyCssProperty parseColor st k v = st := by
  simp only [recognizedKey, Bool.or_eq_false_iff, decide_eq_false_iff_not] at h
  obtain ⟨⟨⟨⟨⟨⟨h1, h2⟩, h3⟩, h4⟩, h5⟩, h6⟩, h7⟩ := h
  simp [applyCssProperty, h1, h2, h3, h4, h5, h6, h7]

/-- One step of the fold in `updateStyleDefinition`. -/
lemma updateStyleDefinition_cons (parseColor : String → Option Rgba)
    (camelCase : String → String) (kv : String × String)
    (rest : List (String × String)) (style : StyleDefinition) :
    updateStyleDefinition parseColor camelCase (kv :: rest) style =
      updateStyleDefinition parseColor camelCase rest
        (applyCssProperty parseColor style (camelCase kv.1) kv.2) := rfl

/-- C6: every property whose normalized key is outside the recognized
set (color, backgroundColor, fontWeight, fontStyle, fontFamily,
fontVariant, fontSize) is ignored by `updateStyleDefinition`: dropping
all such entries yields the same style, and a single such entry sets no
field of the style, for any value. -/
theorem updateStyleDefinition_ignoresUnknown
    (parseColor : String → Option Rgba) (camelCase : String → String)
    (css : List (String × String)) (style : StyleDefinition) :
    updateStyleDefinition parseColor camelCase css style =
      updateStyleDefinition parseColor camelCase
        (css.filter (fun kv => recognizedKey (camelCase kv.1))) style ∧
    (∀ k v st, recognizedKey k = false →
      applyCssProperty parseColor st k v = st) := by
  constructor
  · induction css generalizing style with
    | nil => rfl
    | cons kv rest ih =>
      by_cases h : recognizedKey (camelCase kv.1) = true
      · rw [updateStyleDefinition_cons, ih, List.filter_cons, if_pos (by simpa using h),
          updateStyleDefinition_cons]
      · rw [updateStyleDefinition_cons,
          applyCssProperty_unrecognized parseColor style (camelCase kv.1) kv.2
            (by simpa using h),
          ih, List.filter_cons, if_neg (by simpa using h)]
  · intro k v st h
    exact applyCssProperty_unrecognized parseColor st k v h

/-- Witness for C6 at a concrete unrecognized key. -/
theorem updateStyleDefinition_ignoresUnknown_witness :
    recognizedKey "textShadow" = false ∧
    applyCssProperty (fun _ => none) {} "textShadow" "2px" = {} ∧
    updateStyleDefinition (fun _ => none) id
        [("textShadow", "2px"), ("fontWeight", "bold")] {} =
      updateStyleDefinition (fun _ => none) id [("fontWeight", "bold")] {} := by
  refine ⟨by decide, ?_, ?_⟩
  · exact (updateStyleDefinition_ignoresUnknown (fun _ => none) id [] {}).2
      "textShadow" "2px" {} (by decide)
  · have h := (updateStyleDefinition_ignoresUnknown (fun _ => none) id
      [("textShadow", "2px"), ("fontWeight", "bold")] {}).1
    simpa using h

/-- A throwing CSS parse is caught in `convertCssToObject` and yields
the empty stylesheet. -/
lemma convertCssToObject_error (cssParse : String → Except String ParsedCss)
    (s e : String) (h : cssParse s = .error e) :
    convertCssToObject cssParse s = [] := by
  unfold convertCssToObject
  by_cases hc : s = "" ∨ strTrim s = ""
  · rw [if_pos hc]
  · rw [if_neg hc, h]

/-- C7: the stylesheet resolver is total.  `parseStyleSheet` maps absent
and empty input to the empty stylesheet, `convertCssToObject` maps blank
input to the empty stylesheet and catches a throwing CSS parse (the
error branch always yields the empty stylesheet), and `parseInlineStyle`
yields the empty rule when the parse of its generated dummy rule throws
— no input makes any of them throw. -/
theorem styleSheetResolver_total
    (cssParse : String → Except String ParsedCss)
    (declarationsToRule : String → String) :
    parseStyleSheet cssParse none = [] ∧
    parseStyleSheet cssParse (some "") = [] ∧
    (∀ s, strTrim s = "" → convertCssToObject cssParse s = []) ∧
    (∀ s e, cssParse s = .error e → convertCssToObject cssParse s = []) ∧
    (∀ s e, cssParse (declarationsToRule s) = .error e →
      parseInlineStyle declarationsToRule cssParse s = []) := by
  refine ⟨rfl, rfl, ?_, ?_, ?_⟩
  · intro s hs
    unfold convertCssToObject
    rw [if_pos (Or.inr hs)]
  · intro s e h
    exact convertCssToObject_error cssParse s e h
  · intro s e h
    unfold parseInlineStyle
    simp only [convertCssToObject_error cssParse (declarationsToRule s) e h]
    rfl

/-- Witness for C7 with an always-throwing CSS parser. -/
theorem styleSheetResolver_total_witness :
    strTrim "  " = "" ∧
    convertCssToObject (fun _ => .error "parse error") "  " = [] ∧
    (fun _ : String => (.error "parse error" : Except String ParsedCss)) "h1 \x7b"
      = .error "parse error" ∧
    convertCssToObject (fun _ => .error "parse error") "h1 \x7b" = [] ∧
    parseInlineStyle id (fun _ => .error "parse error") "color: red" = [] := by
  refine ⟨by decide, ?_, rfl, ?_, ?_⟩
  · exact (styleSheetResolver_total (fun _ => .error "parse error") id).2.2.1
      "  " (by decide)
  · exact (styleSheetResolver_total (fun _ => .error "parse error") id).2.2.2.1
      "h1 \x7b" "parse error" rfl
  · exact (styleSheetResolver_total (fun _ => .error "parse error") id).2.2.2.2
      "color: red" "parse error" rfl

/-- C8: `convertRemoteSVG` never rejects: for every behaviour of the
download and of the SVG renderer it resolves with some image, and when
the download or the conversion fails the SVG conversion is dropped — it
resolves with the unmodified image instead of failing the conversion. -/
theorem convertRemoteSVG_neverRejects
    (fetch : String → Except String String)
    (render : ImageDefinition → Except String String)
    (image : ImageDefinition) :
    (∃ r, convertRemoteSVG fetch render image = .ok r) ∧
    (∀ url e, image.url = some url →
      strEndsWith (strToLower url) ".svg" = true →
      strStartsWith url "file://" = false →
      fetch url = .error e →
      convertRemoteSVG fetch render image = .ok image) ∧
    (∀ url svg e, image.url = some url →
      strEndsWith (strToLower url) ".svg" = true →
      strStartsWith url "file://" = false →
      fetch url = .ok svg →
      containsSvgTag svg = true →
      render { image with source := some svg, type := some "svg" } = .error e →
      convertRemoteSVG fetch render image = .ok image) := by
  refine ⟨?_, ?_, ?_⟩
  · rcases hu : image.url with _ | url
    · exact ⟨image, by simp [convertRemoteSVG, hu]⟩
    · by_cases hsvg : strEndsWith (strToLower url) ".svg"
      · by_cases hfile : strStartsWith url "file://"
        · exact ⟨image, by simp [convertRemoteSVG, hu, hsvg, hfile]⟩
        · rcases ha : convertRemoteSVGAttempt fetch render image url with e | r
          · exact ⟨image, by simp [convertRemoteSVG, hu, hsvg, hfile, catchWithImage, ha]⟩
          · exact ⟨r, by simp [convertRemoteSVG, hu, hsvg, hfile, catchWithImage, ha]⟩
      · exact ⟨image, by simp [convertRemoteSVG, hu, hsvg]⟩
  · intro url e hu hsvg hfile hfetch
    simp [convertRemoteSVG, hu, hsvg, hfile, catchWithImage,
      convertRemoteSVGAttempt, hfetch]
  · intro url svg e hu hsvg hfile hfetch hcontent hrender
    rw [hu] at hrender
    simp [convertRemoteSVG, hu, hsvg, hfile, catchWithImage,
      convertRemoteSVGAttempt, hfetch, hcontent, hrender]

/-- Witness for C8: a download that rejects leaves the image untouched
and resolves. -/
theorem convertRemoteSVG_neverRejects_witness :
    convertRemoteSVG (fun _ => .error "timeout") (fun _ => .error "no renderer")
      { url := some "https://example.com/pic.svg" } =
      .ok { url := some "https://example.com/pic.svg" } := by
  exact (convertRemoteSVG_neverRejects (fun _ => .error "timeout")
      (fun _ => .error "no renderer") { url := some "https://example.com/pic.svg" }).2.1
    "https://example.com/pic.svg" "timeout" rfl (by decide) (by decide) rfl

/-- C9: when the image has no URL, or its URL does not end in `.svg`
ignoring case, or its URL starts with `file://`, `convertRemoteSVG` is
the identity: it resolves with the image, every field unchanged. -/
theorem convertRemoteSVG_guards
    (fetch : String → Except String String)
    (render : ImageDefinition → Except String String)
    (image : ImageDefinition)
    (h : image.url = none ∨
      (∃ u, image.url = some u ∧ strEndsWith (strToLower u) ".svg" = false) ∨
      (∃ u, image.url = some u ∧ strStartsWith u "file://" = true)) :
    convertRemoteSVG fetch render image = .ok image := by
  rcases h with h | ⟨u, hu, hsvg⟩ | ⟨u, hu, hfile⟩
  · simp [convertRemoteSVG, h]
  · simp [convertRemoteSVG, hu, hsvg]
  · by_cases hsvg : strEndsWith (strToLower u) ".svg"
    · simp [convertRemoteSVG, hu, hsvg, hfile]
    · simp [convertRemoteSVG, hu, hsvg]

/-- Witness for C9 on the three guard cases. -/
theorem convertRemoteSVG_guards_witness :
    convertRemoteSVG (fun _ => .error "down") (fun _ => .error "down") {} = .ok {} ∧
    convertRemoteSVG (fun _ => .error "down") (fun _ => .error "down")
      { url := some "https://example.com/pic.png" } =
      .ok { url := some "https://example.com/pic.png" } ∧
    convertRemoteSVG (fun _ => .error "down") (fun _ => .error "down")
      { url := some "file://local.svg" } = .ok { url := some "file://local.svg" } := by
  refine ⟨?_, ?_, ?_⟩
  · exact convertRemoteSVG_guards _ _ {} (Or.inl rfl)
  · exact convertRemoteSVG_guards _ _ _
      (Or.inr (Or.inl ⟨"https://example.com/pic.png", rfl, by decide⟩))
  · exact convertRemoteSVG_guards _ _ _
      (Or.inr (Or.inr ⟨"file://local.svg", rfl, by decide⟩))

/-- C10: `uploadLocalImage` rejects exactly when the hosting service's
response lacks the `success` status or a (truthy) `data.url`; otherwise
it resolves with the response URL whose leading `http://tmpfiles.org/`
or `https://tmpfiles.org/` is rewritten to `https://tmpfiles.org/dl/`,
so every successfully returned URL for that host is a download URL. -/
theorem uploadLocalImage_spec (res : UploadResponse) :
    ((∃ e, uploadLocalImage res = .error e) ↔
      (res.status ≠ "success" ∨ dataUrl res = none ∨ dataUrl res = some "")) ∧
    (∀ url, dataUrl res = some url → res.status = "success" → url ≠ "" →
      uploadLocalImage res = .ok (toDownloadUrl url)) ∧
    (∀ url, dataUrl res = some url → res.status = "success" → url ≠ "" →
      strStartsWith url "https://tmpfiles.org/" = true →
      uploadLocalImage res =
        .ok ("https://tmpfiles.org/dl/" ++
          strDrop url (strLength "https://tmpfiles.org/"))) ∧
    (∀ url, dataUrl res = some url → res.status = "success" → url ≠ "" →
      strStartsWith url "https://tmpfiles.org/" = false →
      strStartsWith url "http://tmpfiles.org/" = true →
      uploadLocalImage res =
        .ok ("https://tmpfiles.org/dl/" ++
          strDrop url (strLength "http://tmpfiles.org/"))) := by
  have hok : ∀ url, dataUrl res = some url → res.status = "success" → url ≠ "" →
      uploadLocalImage res = .ok (toDownloadUrl url) := by
    intro url hurl hst hne
    simp [uploadLocalImage, hurl, hst, hne]
  refine ⟨?_, hok, ?_, ?_⟩
  · constructor
    · rintro ⟨e, he⟩
      by_contra hcon
      push_neg at hcon
      obtain ⟨hst, hnone, hempty⟩ := hcon
      rcases hu : dataUrl res with _ | url
      · exact hnone hu
      · have hne : url ≠ "" := by
          intro hc
          exact hempty (by rw [hu, hc])
        rw [hok url hu hst hne] at he
        exact Except.noConfusion he
    · intro h
      rcases hu : dataUrl res with _ | url
      · exact ⟨"upload failed", by simp [uploadLocalImage, hu]⟩
      · rcases h with hst | hnone | hempty
        · exact ⟨"upload failed", by simp [uploadLocalImage, hu, hst]⟩
        · rw [hu] at hnone
          exact Option.noConfusion hnone
        · rw [hu] at hempty
          have : url = "" := (Option.some.injEq _ _).mp hempty
          exact ⟨"upload failed", by simp [uploadLocalImage, hu, this]⟩
  · intro url hurl hst hne hpre
    rw [hok url hurl hst hne]
    simp [toDownloadUrl, hpre]
  · intro url hurl hst hne hpre1 hpre2
    rw [hok url hurl hst hne]
    simp [toDownloadUrl, hpre1, hpre2]

/-- Witness for C10: a successful response whose upload URL is rewritten
to the download URL, and a failing response that rejects. -/
theorem uploadLocalImage_spec_witness :
    uploadLocalImage ⟨"success", some ⟨some "http://tmpfiles.org/123/a.png"⟩⟩ =
      .ok ("https://tmpfiles.org/dl/" ++
        strDrop "http://tmpfiles.org/123/a.png"
          (strLength "http://tmpfiles.org/")) ∧
    (∃ e, uploadLocalImage ⟨"error", none⟩ = .error e) := by
  constructor
  · exact (uploadLocalImage_spec ⟨"success", some ⟨some "http://tmpfiles.org/123/a.png"⟩⟩).2.2.2
      "http://tmpfiles.org/123/a.png" rfl rfl (by decide) (by decide) (by decide)
  · exact ((uploadLocalImage_spec ⟨"error", none⟩).1).mpr (Or.inr (Or.inl rfl))

/-- A missing text block contributes no operation, whatever the bound
identifier. -/
lemma optTextRequests_none (e : Option String) : optTextRequests e none = [] := by
  cases e <;> rfl

/-- Bullet operations are not style-range operations. -/
lemma filter_style_map_bullet (oid : String) (cl : Option CellLocation)
    (lms : List ListMarker) :
    (lms.map (bulletRequest oid cl)).filter isUpdateTextStyleOp = [] := by
  induction lms with
  | nil => rfl
  | cons a l ih => simp [bulletRequest, isUpdateTextStyleOp, ih]

/-- C2: a slide whose body text carries one bold run over characters
0–4 produces exactly one style-range operation — fixed range 0 to 4,
only the bold effect — addressed to the body's element, and that
operation comes right after the plain-text insertion for the same body
container (the insertion is the first operation, the style range the
second). -/
theorem boldRun_singleStyleRange (tid sid nid : Option String)
    (b oid raw : String) (lms : List ListMarker) (big : Bool) :
    (appendContentRequests ⟨tid, sid, some b, nid⟩
        { objectId := oid,
          bodies := [⟨[], [], ⟨raw, [⟨{ bold := some true }, 0, 4⟩], lms, big⟩⟩] }).filter
        isUpdateTextStyleOp =
      [.updateTextStyle b none 0 4 { bold := some true }] ∧
    (appendContentRequests ⟨tid, sid, some b, nid⟩
        { objectId := oid,
          bodies := [⟨[], [], ⟨raw, [⟨{ bold := some true }, 0, 4⟩], lms, big⟩⟩] }).head? =
      some (.insertText b none raw) ∧
    (appendContentRequests ⟨tid, sid, some b, nid⟩
        { objectId := oid,
          bodies := [⟨[], [], ⟨raw, [⟨{ bold := some true }, 0, 4⟩], lms, big⟩⟩] })[1]? =
      some (.updateTextStyle b none 0 4 { bold := some true }) := by
  have hreqs : appendContentRequests ⟨tid, sid, some b, nid⟩
      { objectId := oid,
        bodies := [⟨[], [], ⟨raw, [⟨{ bold := some true }, 0, 4⟩], lms, big⟩⟩] } =
      .insertText b none raw ::
        .updateTextStyle b none 0 4 { bold := some true } ::
        lms.map (bulletRequest b none) := by
    simp [appendContentRequests, optTextRequests_none, bodiesRequests,
      bodyRequests, textRequests, styleRequest, bodyElementId]
  rw [hreqs]
  refine ⟨?_, rfl, by simp⟩
  simp [isUpdateTextStyleOp, filter_style_map_bullet]

/-- C3: for a slide with exactly two bodies, the generated batch inserts
the first body's text into the layout's first body element and the
second body's text into the identifier formed by suffixing `-2` — the
second body element identifier is the first body element identifier
plus `"-2"` (with the allocated base `"<slideId>-element"` this is
`"<slideId>-element-2"`). -/
theorem twoBodies_secondElementId (tid sid nid : Option String)
    (b oid : String) (b1 b2 : Body) (ttl sub nts : Option TextDefinition)
    (tbls : List TableDefinition) (bg : Option ImageDefinition) :
    bodyElementId b 0 = b ∧
    bodyElementId b 1 = b ++ "-2" ∧
    Request.insertText b none b1.text.rawText ∈
      appendContentRequests ⟨tid, sid, some b, nid⟩
        { objectId := oid, title := ttl, subtitle := sub, notes := nts,
          bodies := [b1, b2], tables := tbls, backgroundImage := bg } ∧
    Request.insertText (b ++ "-2") none b2.text.rawText ∈
      appendContentRequests ⟨tid, sid, some b, nid⟩
        { objectId := oid, title := ttl, subtitle := sub, notes := nts,
          bodies := [b1, b2], tables := tbls, backgroundImage := bg } := by
  have hid2 : bodyElementId b 1 = b ++ "-2" := by
    show (b ++ "-") ++ toString (1 + 1) = b ++ "-2"
    rw [String.append_assoc]
    rfl
  have hmem : ∀ elementId body, Request.insertText elementId none body.text.rawText ∈
      bodyRequests oid elementId body := by
    intro elementId body
    simp [bodyRequests, textRequests]
  have hstruct : appendContentRequests ⟨tid, sid, some b, nid⟩
      { objectId := oid, title := ttl, subtitle := sub, notes := nts,
        bodies := [b1, b2], tables := tbls, backgroundImage := bg } =
      optTextRequests tid ttl ++ optTextRequests sid sub
        ++ bodiesRequests oid b [b1, b2]
        ++ (tbls.enum.flatMap fun it =>
              tableRequests oid (tableElementId oid it.1) it.2)
        ++ optTextRequests nid nts
        ++ (match bg with
            | some img =>
              match img.url with
              | some u => [Request.updatePageProperties oid u]
              | none => []
            | none => []) := rfl
  have hbodies : bodiesRequests oid b [b1, b2] =
      bodyRequests oid b b1 ++ (bodyRequests oid (b ++ "-2") b2 ++ []) := by
    show bodyRequests oid (bodyElementId b 0) b1 ++
        (bodyRequests oid (bodyElementId b 1) b2 ++ []) = _
    rw [hid2]
    rfl
  refine ⟨rfl, hid2, ?_, ?_⟩
  · rw [hstruct, hbodies]
    exact List.mem_append.mpr (Or.inl (List.mem_append.mpr (Or.inl
      (List.mem_append.mpr (Or.inl (List.mem_append.mpr (Or.inr
      (List.mem_append.mpr (Or.inl (hmem b b1))))))))))
  · rw [hstruct, hbodies]
    exact List.mem_append.mpr (Or.inl (List.mem_append.mpr (Or.inl
      (List.mem_append.mpr (Or.inl (List.mem_append.mpr (Or.inr
      (List.mem_append.mpr (Or.inr (List.mem_append.mpr (Or.inl
      (hmem (b ++ "-2") b2))))))))))))

/-- Requests produced by `List.map` all fail a predicate that is false
on every image. -/
lemma filter_map_false {α : Type} (p : Request → Bool) (f : α → Request)
    (l : List α) (h : ∀ a, p (f a) = false) : (l.map f).filter p = [] := by
  induction l with
  | nil => rfl
  | cons a t ih => simp [h, ih]

/-- Requests produced by `List.map` are all kept by a predicate that is
true on every image. -/
lemma filter_map_true {α : Type} (p : Request → Bool) (f : α → Request)
    (l : List α) (h : ∀ a, p (f a) = true) : (l.map f).filter p = l.map f := by
  induction l with
  | nil => rfl
  | cons a t ih => simp [h, ih]

/-- A text container contributes no create-table operation. -/
lemma textRequests_filter_createTable (objectId : String)
    (cl : Option CellLocation) (t : TextDefinition) :
    (textRequests objectId cl t).filter isCreateTableOp = [] := by
  simp [textRequests, isCreateTableOp,
    filter_map_false isCreateTableOp (styleRequest objectId cl) t.textRuns
      (fun a => rfl),
    filter_map_false isCreateTableOp (bulletRequest objectId cl) t.listMarkers
      (fun a => rfl)]

/-- The only cell-addressed insertion among a cell container's
operations is its plain-text insertion. -/
lemma textRequests_filter_cellInsert (objectId : String) (r c : ℕ)
    (t : TextDefinition) :
    (textRequests objectId (some ⟨r, c⟩) t).filter isCellInsertOp =
      [Request.insertText objectId (some ⟨r, c⟩) t.rawText] := by
  simp [textRequests, isCellInsertOp,
    filter_map_false isCellInsertOp (styleRequest objectId (some ⟨r, c⟩))
      t.textRuns (fun a => rfl),
    filter_map_false isCellInsertOp (bulletRequest objectId (some ⟨r, c⟩))
      t.listMarkers (fun a => rfl)]

/-- Every operation of a cell's text container targets that cell. -/
lemma textRequests_filter_targets_self (objectId : String) (r c : ℕ)
    (t : TextDefinition) :
    (textRequests objectId (some ⟨r, c⟩) t).filter (targetsCell r c) =
      textRequests objectId (some ⟨r, c⟩) t := by
  simp [textRequests, targetsCell,
    filter_map_true (targetsCell r c) (styleRequest objectId (some ⟨r, c⟩))
      t.textRuns (fun a => by simp [styleRequest, targetsCell]),
    filter_map_true (targetsCell r c) (bulletRequest objectId (some ⟨r, c⟩))
      t.listMarkers (fun a => by simp [bulletRequest, targetsCell])]

/-- No operation of a different cell's text container targets this
cell. -/
lemma textRequests_filter_targets_ne (objectId : String) (r c r2 c2 : ℕ)
    (t : TextDefinition) (h : ¬(r2 = r ∧ c2 = c)) :
    (textRequests objectId (some ⟨r2, c2⟩) t).filter (targetsCell r c) = [] := by
  simp [textRequests, targetsCell, h,
    filter_map_false (targetsCell r c) (styleRequest objectId (some ⟨r2, c2⟩))
      t.textRuns (fun a => by simp [styleRequest, targetsCell, h]),
    filter_map_false (targetsCell r c) (bulletRequest objectId (some ⟨r2, c2⟩))
      t.listMarkers (fun a => by simp [bulletRequest, targetsCell, h])]

/-- Operations of cell `(r2, c2)`'s container survive the filter for
cell `(r, c)` exactly when the two cells coincide. -/
lemma textRequests_filter_targets (objectId : String) (r c r2 c2 : ℕ)
    (t : TextDefinition) :
    (textRequests objectId (some ⟨r2, c2⟩) t).filter (targetsCell r c) =
      if r2 = r ∧ c2 = c then textRequests objectId (some ⟨r2, c2⟩) t
      else [] := by
  by_cases h : r2 = r ∧ c2 = c
  · obtain ⟨hr, hc⟩ := h
    subst hr
    subst hc
    rw [if_pos ⟨rfl, rfl⟩]
    exact textRequests_filter_targets_self objectId r2 c2 t
  · rw [if_neg h]
    exact textRequests_filter_targets_ne objectId r c r2 c2 t h

/-- The raw text of cell `(r, c)` of a table. -/
def cellRawText (t : TableDefinition) (r c : ℕ) : String :=
  ((t.cells.getD r []).getD c default).rawText

/-- C4: a slide containing a 5×2 table produces exactly one create-table
operation, with `rows = 5` and `columns = 2`, on the slide's page; the
cell-addressed text insertions appear in row-major order, each carrying
the `rowIndex` and `columnIndex` of its cell; and for every cell, the
first operation targeting that cell is its text insertion, so each
cell's insertion precedes every style operation for that cell. -/
theorem tableRowMajor (tid sid bid nid : Option String) (oid : String)
    (c00 c01 c10 c11 c20 c21 c30 c31 c40 c41 : TextDefinition) :
    (appendContentRequests ⟨tid, sid, bid, nid⟩
        { objectId := oid, tables := [⟨5, 2, [[c00, c01], [c10, c11], [c20, c21], [c30, c31], [c40, c41]]⟩] }).filter isCreateTableOp =
      [Request.createTable oid (tableElementId oid 0) 5 2] ∧
    (appendContentRequests ⟨tid, sid, bid, nid⟩
        { objectId := oid, tables := [⟨5, 2, [[c00, c01], [c10, c11], [c20, c21], [c30, c31], [c40, c41]]⟩] }).filter isCellInsertOp =
      [Request.insertText (tableElementId oid 0) (some ⟨0, 0⟩) c00.rawText,
       Request.insertText (tableElementId oid 0) (some ⟨0, 1⟩) c01.rawText,
       Request.insertText (tableElementId oid 0) (some ⟨1, 0⟩) c10.rawText,
       Request.insertText (tableElementId oid 0) (some ⟨1, 1⟩) c11.rawText,
       Request.insertText (tableElementId oid 0) (some ⟨2, 0⟩) c20.rawText,
       Request.insertText (tableElementId oid 0) (some ⟨2, 1⟩) c21.rawText,
       Request.insertText (tableElementId oid 0) (some ⟨3, 0⟩) c30.rawText,
       Request.insertText (tableElementId oid 0) (some ⟨3, 1⟩) c31.rawText,
       Request.insertText (tableElementId oid 0) (some ⟨4, 0⟩) c40.rawText,
       Request.insertText (tableElementId oid 0) (some ⟨4, 1⟩) c41.rawText] ∧
    (∀ r c, r < 5 → c < 2 →
      ((appendContentRequests ⟨tid, sid, bid, nid⟩
        { objectId := oid, tables := [⟨5, 2, [[c00, c01], [c10, c11], [c20, c21], [c30, c31], [c40, c41]]⟩] }).filter (targetsCell r c)).head? =
        some (Request.insertText (tableElementId oid 0) (some ⟨r, c⟩)
          (cellRawText ⟨5, 2, [[c00, c01], [c10, c11], [c20, c21], [c30, c31], [c40, c41]]⟩ r c))) := by
  have hstruct : appendContentRequests ⟨tid, sid, bid, nid⟩
        { objectId := oid, tables := [⟨5, 2, [[c00, c01], [c10, c11], [c20, c21], [c30, c31], [c40, c41]]⟩] } =
      tableRequests oid (tableElementId oid 0)
        ⟨5, 2, [[c00, c01], [c10, c11], [c20, c21], [c30, c31], [c40, c41]]⟩ := by
    cases tid <;> cases sid <;> cases bid <;> cases nid <;>
      simp [appendContentRequests, optTextRequests, bodiesRequests]
  have hcells : tableRequests oid (tableElementId oid 0)
      ⟨5, 2, [[c00, c01], [c10, c11], [c20, c21], [c30, c31], [c40, c41]]⟩ =
      Request.createTable oid (tableElementId oid 0) 5 2 ::
      ((textRequests (tableElementId oid 0) (some ⟨0, 0⟩) c00 ++ (textRequests (tableElementId oid 0) (some ⟨0, 1⟩) c01 ++ [])) ++
       ((textRequests (tableElementId oid 0) (some ⟨1, 0⟩) c10 ++ (textRequests (tableElementId oid 0) (some ⟨1, 1⟩) c11 ++ [])) ++
       ((textRequests (tableElementId oid 0) (some ⟨2, 0⟩) c20 ++ (textRequests (tableElementId oid 0) (some ⟨2, 1⟩) c21 ++ [])) ++
       ((textRequests (tableElementId oid 0) (some ⟨3, 0⟩) c30 ++ (textRequests (tableElementId oid 0) (some ⟨3, 1⟩) c31 ++ [])) ++
       ((textRequests (tableElementId oid 0) (some ⟨4, 0⟩) c40 ++ (textRequests (tableElementId oid 0) (some ⟨4, 1⟩) c41 ++ [])) ++
       []))))) := rfl
  refine ⟨?_, ?_, ?_⟩
  · rw [hstruct, hcells]
    simp [isCreateTableOp, List.filter_append, textRequests_filter_createTable]
  · rw [hstruct, hcells]
    simp [isCellInsertOp, List.filter_append, textRequests_filter_cellInsert]
  · intro r c hr hc
    interval_cases r <;> interval_cases c <;>
      (rw [hstruct, hcells]
       simp only [List.filter_append, List.filter_cons,
         textRequests_filter_targets, targetsCell]
       simp [textRequests, cellRawText])

/-- Witness for C4 at cell `(1, 1)` of a concrete 5×2 table. -/
theorem tableRowMajor_witness :
    (1 : ℕ) < 5 ∧ (1 : ℕ) < 2 ∧
    ((appendContentRequests ⟨none, none, none, none⟩
        { objectId := "s",
          tables := [⟨5, 2, [[⟨"r0c0", [], [], false⟩, ⟨"r0c1", [], [], false⟩], [⟨"r1c0", [], [], false⟩, ⟨"r1c1", [], [], false⟩], [⟨"r2c0", [], [], false⟩, ⟨"r2c1", [], [], false⟩], [⟨"r3c0", [], [], false⟩, ⟨"r3c1", [], [], false⟩], [⟨"r4c0", [], [], false⟩, ⟨"r4c1", [], [], false⟩]]⟩] }).filter
        (targetsCell 1 1)).head? =
      some (Request.insertText (tableElementId "s" 0) (some ⟨1, 1⟩)
        (cellRawText ⟨5, 2, [[⟨"r0c0", [], [], false⟩, ⟨"r0c1", [], [], false⟩], [⟨"r1c0", [], [], false⟩, ⟨"r1c1", [], [], false⟩], [⟨"r2c0", [], [], false⟩, ⟨"r2c1", [], [], false⟩], [⟨"r3c0", [], [], false⟩, ⟨"r3c1", [], [], false⟩], [⟨"r4c0", [], [], false⟩, ⟨"r4c1", [], [], false⟩]]⟩ 1 1)) := by
  refine ⟨by norm_num, by norm_num, ?_⟩
  exact (tableRowMajor none none none none "s"
    ⟨"r0c0", [], [], false⟩ ⟨"r0c1", [], [], false⟩ ⟨"r1c0", [], [], false⟩ ⟨"r1c1", [], [], false⟩ ⟨"r2c0", [], [], false⟩ ⟨"r2c1", [], [], false⟩
    ⟨"r3c0", [], [], false⟩ ⟨"r3c1", [], [], false⟩ ⟨"r4c0", [], [], false⟩ ⟨"r4c1", [], [], false⟩).2.2 1 1 (by norm_num) (by norm_num)

end MdToSlides


